import Mathlib

/-!
Shallow embedding of `cloud_iot_mqtt.py` (tivaliy/iot-device-simulator).

Python strings that get split apart are modelled as `List Char`; strings that
are only built and compared stay Lean `String`s.  Machine integers in the
source are plain Python ints, so `Nat`/`Int`/`Rat` model them exactly.
Side effects (logging, sleeping, calls into the paho broker client) are
modelled as explicit action traces returned alongside the updated state.
-/

/-- Character-list view of a Python `str`, used where the code splits strings. -/
abbrev Str := List Char

/-- Python `s.split(sep)` for a one-character separator, on the char-list view:
`"".split(sep) == [""]`, a leading/trailing separator yields an empty piece. -/
def pySplit (sep : Char) : Str → List Str
  | [] => [[]]
  | c :: cs =>
    if c = sep then [] :: pySplit sep cs
    else
      match pySplit sep cs with
      | [] => [[c]]
      | t :: ts => (c :: t) :: ts

/-- Python slice `lst[1::2]`: the elements at odd indices 1, 3, 5, ... -/
def oddSlice {α : Type} : List α → List α
  | [] => []
  | [_] => []
  | _ :: b :: rest => b :: oddSlice rest

/-- `Device.MAX_BACKOFF_TIME` (line 73): maximum backoff before giving up, in
seconds. -/
def MAX_BACKOFF_TIME : ℕ := 32

/-- State of one `Device` object: the four identity fields set in `__init__`
(lines 77-80) and the backoff fields `_should_backoff`, `_min_backoff_time`
(lines 90-92). -/
structure Device where
  project_id : Str
  cloud_region : Str
  registry_id : Str
  device_id : Str
  should_backoff : Bool
  min_backoff_time : ℕ
deriving DecidableEq

/-- `Device.__init__` (lines 75-92): stores the four identity params and
initialises `_should_backoff = True`, `_min_backoff_time = 1`. -/
def Device.init (p r g d : Str) : Device :=
  ⟨p, r, g, d, true, 1⟩

/-- `Device.client_id` (lines 103-110): the f-string
`projects/{p}/locations/{r}/registries/{g}/devices/{d}`. -/
def Device.client_id (dev : Device) : Str :=
  "projects/".data ++ dev.project_id
    ++ "/locations/".data ++ dev.cloud_region
    ++ "/registries/".data ++ dev.registry_id
    ++ "/devices/".data ++ dev.device_id

/-- `Device.create_from_client_id` (lines 94-101):
`cls(*client_id.split("/")[1::2])`.  The starred call succeeds only when the
slice has exactly the four constructor arguments; any other arity raises a
`TypeError`, modelled as `none`. -/
def Device.create_from_client_id (s : Str) : Option Device :=
  match oddSlice (pySplit '/' s) with
  | [p, r, g, d] => some (Device.init p r g d)
  | _ => none

/-- The jitter term of `Device.connect` line 148:
`random.randint(0, 1000) / 1000.0`, where `r` is the drawn integer
(inclusive range, so `0 ≤ r ≤ 1000`). -/
def jitterOf (r : ℕ) : ℚ :=
  (r : ℚ) / 1000

/-- Observable actions of `Device.connect`: log lines, the `time.sleep`, the
assignment doubling `_min_backoff_time`, and the `self._client.connect` call
into the paho broker client. -/
inductive Act where
  | logConnecting
  | logGiveUp
  | sleep (d : ℚ)
  | setMinBackoff (n : ℕ)
  | brokerConnect (host : String) (port : ℕ)
deriving DecidableEq

/-- `Device.connect` (lines 138-154), with the `random.randint(0, 1000)` draw
passed in as `r`.  Returns the trace of actions in source order together with
the updated device state. -/
def Device.connect (dev : Device) (host : String) (port : ℕ) (r : ℕ) :
    List Act × Device :=
  if dev.should_backoff then
    if MAX_BACKOFF_TIME < dev.min_backoff_time then
      ([Act.logConnecting, Act.logGiveUp], dev)
    else
      ([Act.logConnecting,
        Act.sleep ((dev.min_backoff_time : ℚ) + jitterOf r),
        Act.setMinBackoff (dev.min_backoff_time * 2),
        Act.brokerConnect host port],
       { dev with min_backoff_time := dev.min_backoff_time * 2 })
  else
    ([Act.logConnecting], dev)

/-- `Device.on_connect` (lines 182-190): after logging, unconditionally sets
`_should_backoff = False` and `_min_backoff_time = 1`; the result code `rc`
is only logged, never branched on. -/
def Device.on_connect (dev : Device) (rc : ℕ) : Device :=
  { dev with should_backoff := false, min_backoff_time := 1 }

/-- `Device.on_disconnect` (lines 192-200): sets `_should_backoff = True`;
`_min_backoff_time` is left as it was. -/
def Device.on_disconnect (dev : Device) (rc : ℕ) : Device :=
  { dev with should_backoff := true }

/-- Outcome of a Python call: normal return or a raised exception. -/
inductive PyResult (α : Type) where
  | ok (a : α)
  | exn (e : String)
deriving DecidableEq

/-- `Device.on_message` (lines 216-235).  `json.loads` is the Python standard
library, external to this file, so it is a parameter `jsonLoads`; a parse
failure makes it raise, and since line 234 is not wrapped in `try`/`except`
the exception propagates out of `on_message`.  An empty decoded payload
returns at line 231 before any parsing.  The device state is returned
unchanged on every path, as `on_message` assigns no attribute. -/
def Device.on_message {Doc : Type} (jsonLoads : String → PyResult Doc)
    (dev : Device) (payload : String) : PyResult (Option Doc) × Device :=
  if payload = "" then
    (PyResult.ok none, dev)
  else
    match jsonLoads payload with
    | PyResult.ok d => (PyResult.ok (some d), dev)
    | PyResult.exn e => (PyResult.exn e, dev)

/-- A `json.loads` behaviour witnessing malformed input: in Python,
`json.loads("oops")` raises `json.decoder.JSONDecodeError`, and this model
returns that outcome for the input it is applied to. -/
def alwaysMalformed : String → PyResult Unit :=
  fun _ => PyResult.exn "json.decoder.JSONDecodeError"

/-- The claims `create_jwt` (lines 43-57) places in the token: `iat` is the
first `datetime.datetime.utcnow()` read (line 49), `exp` is the second read
plus `timedelta(minutes=60)` = 3600 s (line 50), `aud` is the project id
(line 51).  Times are seconds on an integer clock; `t1` and `t2` are the two
successive wall-clock reads. -/
structure JwtClaims where
  iat : ℤ
  exp : ℤ
  aud : String
deriving DecidableEq

/-- `create_jwt` (lines 43-57), restricted to the token claims it builds;
signing is delegated to the external `jwt` library and does not alter the
claims. -/
def create_jwt (project_id : String) (t1 t2 : ℤ) : JwtClaims :=
  ⟨t1, t2 + 3600, project_id⟩

/-- Steps of the `managed_device` context manager (lines 314-335), in source
order. -/
inductive SessionAct where
  | createDevice
  | authenticate
  | tlsSet
  | connectStep
  | loopStart
  | runBody
  | disconnectStep
  | loopStop
deriving DecidableEq

/-- `managed_device` (lines 314-335): a `@contextmanager` generator.  The
statements after `yield` run only when the `with` body completes normally;
if the body raises, the exception is re-raised at the `yield` (lines 334-335
never execute), because the `yield` is not wrapped in `try`/`finally`.
`hasToken` and `hasCaCerts` are the truthiness of the `token` and
`conn_cfg.ca_certs` arguments; `bodyRaises` says whether the `with` body
raised. -/
def managed_device (hasToken : Bool) (hasCaCerts : Bool) (bodyRaises : Bool) :
    List SessionAct :=
  [SessionAct.createDevice]
    ++ (if hasToken then [SessionAct.authenticate] else [])
    ++ (if hasCaCerts then [SessionAct.tlsSet] else [])
    ++ [SessionAct.connectStep, SessionAct.loopStart, SessionAct.runBody]
    ++ (if bodyRaises then []
        else [SessionAct.disconnectStep, SessionAct.loopStop])

/-- The telemetry payload f-string of `main` line 375:
`{registry}/{device}-payload-{i}`. -/
def payload_str (registry device : String) (i : ℕ) : String :=
  registry ++ "/" ++ device ++ "-payload-" ++ toString i

/-- The publish loop of `main` (lines 374-381): `for i in range(1, N + 1)`
publishes `payload_str registry device i` at each iteration, in order. -/
def telemetry_payloads (registry device : String) (n : ℕ) : List String :=
  (List.range' 1 n).map (payload_str registry device)

/-! Helper lemmas about the split model. -/

/-- Splitting a string with no separator occurrence yields the single piece. -/
theorem pySplit_no_sep (sep : Char) (xs : Str) (h : sep ∉ xs) :
    pySplit sep xs = [xs] := by
  induction xs with
  | nil => rfl
  | cons c cs ih =>
    have hc : ¬ c = sep := fun e => h (e ▸ List.mem_cons_self c cs)
    have hcs : sep ∉ cs := fun m => h (List.mem_cons_of_mem c m)
    simp [pySplit, hc, ih hcs]

/-- Splitting past a separator-free chunk peels that chunk off. -/
theorem pySplit_append_sep (sep : Char) (xs ys : Str) (h : sep ∉ xs) :
    pySplit sep (xs ++ sep :: ys) = xs :: pySplit sep ys := by
  induction xs with
  | nil => simp [pySplit]
  | cons c cs ih =>
    have hc : ¬ c = sep := fun e => h (e ▸ List.mem_cons_self c cs)
    have hcs : sep ∉ cs := fun m => h (List.mem_cons_of_mem c m)
    simp [pySplit, hc, ih hcs]

/-! The claim theorems. -/

/-- Claim C1, counterexample: on a device whose should-backoff flag is false,
`Device.connect` issues no connect call to the broker client at all — the
trace holds only the log line, so the attempt IS silently skipped, contrary
to the claim that it is attempted immediately. -/
theorem c1_counterexample :
    (Device.connect ⟨[], [], [], [], false, 1⟩ "mqtt.googleapis.com" 8883 0).1
      = [Act.logConnecting] ∧
    Act.brokerConnect "mqtt.googleapis.com" 8883 ∉
      (Device.connect ⟨[], [], [], [], false, 1⟩ "mqtt.googleapis.com" 8883 0).1 := by
  constructor
  · rfl
  · decide

/-- Claim C1, amended: for every call of `Device.connect` in which
should-backoff is false, the whole backoff-and-connect block is skipped: no
broker connect call (and no sleep) is issued, and the device state is
unchanged. -/
theorem c1_no_connect_when_no_backoff (dev : Device) (host : String)
    (port r : ℕ) (hb : dev.should_backoff = false) :
    dev.connect host port r = ([Act.logConnecting], dev) := by
  simp [Device.connect, hb]

/-- Claim C1 witness: the amended theorem at a concrete device. -/
theorem c1_witness :
    (⟨[], [], [], [], false, 1⟩ : Device).should_backoff = false ∧
    (Device.connect ⟨[], [], [], [], false, 1⟩ "localhost" 1883 7)
      = ([Act.logConnecting], (⟨[], [], [], [], false, 1⟩ : Device)) :=
  ⟨rfl, c1_no_connect_when_no_backoff _ "localhost" 1883 7 rfl⟩

/-- Claim C2 (code bug evaluation): when the `with` body raises
(`bodyRaises = true`), the `managed_device` trace contains neither the
disconnect nor the loop-stop teardown step, because the generator has no
`try`/`finally` around its `yield`; on normal completion the teardown pair
does run, in order, at the end of the trace. -/
theorem c2_teardown_skipped_on_raise :
    SessionAct.disconnectStep ∉ managed_device true true true ∧
    SessionAct.loopStop ∉ managed_device true true true ∧
    managed_device true true false
      = [SessionAct.createDevice, SessionAct.authenticate, SessionAct.tlsSet,
         SessionAct.connectStep, SessionAct.loopStart, SessionAct.runBody,
         SessionAct.disconnectStep, SessionAct.loopStop] := by
  decide

/-- Claim C3, counterexample: a non-empty payload that is not valid JSON
(Python: `json.loads("oops")` raises `json.decoder.JSONDecodeError`) makes
`on_message` propagate the exception to its caller instead of discarding the
message, since the `json.loads` call is not wrapped in `try`/`except`. -/
theorem c3_counterexample :
    Device.on_message alwaysMalformed ⟨[], [], [], [], true, 1⟩ "oops"
      = (PyResult.exn "json.decoder.JSONDecodeError",
         (⟨[], [], [], [], true, 1⟩ : Device)) := by
  decide

/-- Claim C3, amended: an empty decoded payload returns before any document
parsing with the device state unchanged (for every parser, so parsing is
never consulted); a non-empty payload on which the parser raises makes
`on_message` raise that same exception to the caller, with the device state
still unchanged. -/
theorem c3_on_message_behaviour {Doc : Type}
    (jsonLoads : String → PyResult Doc) (dev : Device) (payload e : String)
    (hne : payload ≠ "") (hmal : jsonLoads payload = PyResult.exn e) :
    Device.on_message jsonLoads dev payload = (PyResult.exn e, dev) ∧
    Device.on_message jsonLoads dev "" = (PyResult.ok none, dev) := by
  constructor
  · simp [Device.on_message, hne, hmal]
  · simp [Device.on_message]

/-- Claim C3 witness: the amended theorem at a concrete malformed message. -/
theorem c3_witness :
    ("oops" ≠ "") ∧
    alwaysMalformed "oops" = PyResult.exn "json.decoder.JSONDecodeError" ∧
    (Device.on_message alwaysMalformed ⟨[], [], [], [], true, 1⟩ "oops"
        = (PyResult.exn "json.decoder.JSONDecodeError",
           (⟨[], [], [], [], true, 1⟩ : Device)) ∧
     Device.on_message alwaysMalformed ⟨[], [], [], [], true, 1⟩ ""
        = (PyResult.ok none, (⟨[], [], [], [], true, 1⟩ : Device))) :=
  ⟨by decide, rfl,
   c3_on_message_behaviour alwaysMalformed ⟨[], [], [], [], true, 1⟩ "oops"
     "json.decoder.JSONDecodeError" (by decide) rfl⟩

/-- Claim C4: with should-backoff true and min-backoff above
`MAX_BACKOFF_TIME` (32), the attempt is abandoned: the trace is just the
connecting log line followed by the giving-up error report, no broker
connect call is issued, and the state is unchanged (so within this run no
further attempt happens). -/
theorem c4_backoff_exhausted (dev : Device) (host : String) (port r : ℕ)
    (hb : dev.should_backoff = true)
    (hm : MAX_BACKOFF_TIME < dev.min_backoff_time) :
    (dev.connect host port r).1 = [Act.logConnecting, Act.logGiveUp] ∧
    (∀ hst pt, Act.brokerConnect hst pt ∉ (dev.connect host port r).1) ∧
    (dev.connect host port r).2 = dev := by
  refine ⟨by simp [Device.connect, hb, hm], ?_, by simp [Device.connect, hb, hm]⟩
  intro hst pt
  simp [Device.connect, hb, hm]

/-- Claim C4 witness: a device that has doubled its way to 64 seconds. -/
theorem c4_witness :
    (⟨[], [], [], [], true, 64⟩ : Device).should_backoff = true ∧
    MAX_BACKOFF_TIME < (⟨[], [], [], [], true, 64⟩ : Device).min_backoff_time ∧
    (Device.connect ⟨[], [], [], [], true, 64⟩ "mqtt.googleapis.com" 8883 500).1
      = [Act.logConnecting, Act.logGiveUp] :=
  ⟨rfl, by decide,
   (c4_backoff_exhausted ⟨[], [], [], [], true, 64⟩ "mqtt.googleapis.com" 8883
      500 rfl (by decide)).1⟩

/-- Claim C5: `on_connect` with the success result code 0 leaves the device
with should-backoff false and min-backoff 1 second, whatever the prior
backoff state (so also after any sequence of failures and doublings). -/
theorem c5_on_connect_success_resets (dev : Device) (rc : ℕ) (h : rc = 0) :
    (dev.on_connect rc).should_backoff = false ∧
    (dev.on_connect rc).min_backoff_time = 1 :=
  ⟨rfl, rfl⟩

/-- Claim C5 witness: a success after the backoff had doubled up to 8 s. -/
theorem c5_witness :
    (Device.on_connect ⟨[], [], [], [], true, 8⟩ 0).should_backoff = false ∧
    (Device.on_connect ⟨[], [], [], [], true, 8⟩ 0).min_backoff_time = 1 :=
  c5_on_connect_success_resets ⟨[], [], [], [], true, 8⟩ 0 rfl

/-- Claim C6 (code bug evaluation): `on_connect` called with the failure
result code 1 ("connection refused") still sets should-backoff to FALSE and
resets min-backoff to 1 — the code never inspects `rc` — while
`on_disconnect` does set should-backoff to true as the claim says. -/
theorem c6_code_eval :
    (Device.on_connect ⟨[], [], [], [], true, 8⟩ 1).should_backoff = false ∧
    (Device.on_connect ⟨[], [], [], [], true, 8⟩ 1).min_backoff_time = 1 ∧
    (Device.on_disconnect ⟨[], [], [], [], false, 1⟩ 1).should_backoff = true :=
  ⟨rfl, rfl, rfl⟩

/-- Claim C7, counterexample: the jitter is `randint(0, 1000) / 1000.0` and
`randint` is INCLUSIVE of both ends, so the draw `r = 1000` gives jitter
exactly 1, which is not in the half-open interval [0, 1): the sleep on a
fresh backed-off device is `1 + jitterOf 1000 = 2`, with `¬ jitterOf 1000 < 1`. -/
theorem c7_counterexample :
    (Device.connect ⟨[], [], [], [], true, 1⟩ "mqtt.googleapis.com" 8883 1000).1
      = [Act.logConnecting, Act.sleep (1 + jitterOf 1000),
         Act.setMinBackoff 2,
         Act.brokerConnect "mqtt.googleapis.com" 8883] ∧
    ¬ jitterOf 1000 < 1 := by
  constructor
  · norm_num [Device.connect, MAX_BACKOFF_TIME]
  · norm_num [jitterOf]

/-- Claim C7, amended: a backed-off connect attempt within the ceiling sleeps
for min-backoff plus a jitter in the CLOSED interval [0, 1] (a multiple of
1/1000), then doubles min-backoff, then issues the broker connect call — in
that order in the trace. -/
theorem c7_backoff_sleep_double (dev : Device) (host : String) (port r : ℕ)
    (hb : dev.should_backoff = true)
    (hm : dev.min_backoff_time ≤ MAX_BACKOFF_TIME) (hr : r ≤ 1000) :
    (dev.connect host port r).1
      = [Act.logConnecting,
         Act.sleep ((dev.min_backoff_time : ℚ) + jitterOf r),
         Act.setMinBackoff (dev.min_backoff_time * 2),
         Act.brokerConnect host port] ∧
    0 ≤ jitterOf r ∧ jitterOf r ≤ 1 ∧
    (dev.connect host port r).2.min_backoff_time
      = dev.min_backoff_time * 2 := by
  have hm' : ¬ MAX_BACKOFF_TIME < dev.min_backoff_time := not_lt.mpr hm
  refine ⟨by simp [Device.connect, hb, hm'], ?_, ?_,
    by simp [Device.connect, hb, hm']⟩
  · unfold jitterOf
    positivity
  · unfold jitterOf
    rw [div_le_one (by norm_num)]
    exact_mod_cast hr

/-- Claim C7 witness: third attempt (min-backoff 4 s) with draw 250. -/
theorem c7_witness :
    ((⟨[], [], [], [], true, 4⟩ : Device).should_backoff = true ∧
     (⟨[], [], [], [], true, 4⟩ : Device).min_backoff_time ≤ MAX_BACKOFF_TIME ∧
     (250 : ℕ) ≤ 1000) ∧
    ((Device.connect ⟨[], [], [], [], true, 4⟩ "mqtt.googleapis.com" 8883 250).1
      = [Act.logConnecting, Act.sleep ((4 : ℚ) + jitterOf 250),
         Act.setMinBackoff 8, Act.brokerConnect "mqtt.googleapis.com" 8883] ∧
     0 ≤ jitterOf 250 ∧ jitterOf 250 ≤ 1 ∧
     (Device.connect ⟨[], [], [], [], true, 4⟩ "mqtt.googleapis.com" 8883
        250).2.min_backoff_time = 8) :=
  ⟨⟨rfl, by decide, by decide⟩,
   c7_backoff_sleep_double ⟨[], [], [], [], true, 4⟩ "mqtt.googleapis.com" 8883
     250 rfl (by decide) (by decide)⟩

/-- Claim C8, counterexample: `create_jwt` reads the clock twice (once for
`iat`, once again for `exp`); with reads at 0 s and 1 s the difference
`exp - iat` is 3601, not exactly 3600, though the audience claim is the
project id. -/
theorem c8_counterexample :
    (0 : ℤ) ≤ 1 ∧
    (create_jwt "my-project" 0 1).aud = "my-project" ∧
    (create_jwt "my-project" 0 1).exp - (create_jwt "my-project" 0 1).iat
      ≠ 3600 := by
  refine ⟨by decide, rfl, by decide⟩

/-- Claim C8, amended: `aud` always equals the given project id, and
`exp - iat` equals 3600 seconds PLUS the elapsed time between the two
wall-clock reads — exactly 3600 only when the two reads coincide. -/
theorem c8_jwt_claims (project : String) (t1 t2 : ℤ) :
    (create_jwt project t1 t2).aud = project ∧
    (create_jwt project t1 t2).exp - (create_jwt project t1 t2).iat
      = 3600 + (t2 - t1) := by
  refine ⟨rfl, ?_⟩
  simp [create_jwt]
  ring

/-- Claim C9: one session run's publish loop over `range(1, N + 1)` yields
exactly N payloads, and the payload at 0-based position i is exactly
`{registry}/{device}-payload-{i+1}` — hence 1-based indices 1..N in strictly
increasing order with no duplicates or gaps. -/
theorem c9_publish_loop (registry device : String) (n : ℕ) :
    (telemetry_payloads registry device n).length = n ∧
    ∀ i, i < n →
      (telemetry_payloads registry device n).getD i ""
        = payload_str registry device (i + 1) := by
  have hlen : (telemetry_payloads registry device n).length = n := by
    simp [telemetry_payloads]
  refine ⟨hlen, ?_⟩
  intro i h
  rw [List.getD_eq_getElem _ _ (by rw [hlen]; exact h)]
  simp [telemetry_payloads, List.getElem_range']
  ring_nf

/-- Claim C9 witness: zero messages publish nothing; with three messages the
middle one is payload 2. -/
theorem c9_witness :
    (telemetry_payloads "example-registry" "device-1" 0).length = 0 ∧
    (telemetry_payloads "example-registry" "device-1" 3).length = 3 ∧
    (telemetry_payloads "example-registry" "device-1" 3).getD 1 ""
      = payload_str "example-registry" "device-1" 2 :=
  ⟨(c9_publish_loop "example-registry" "device-1" 0).1,
   (c9_publish_loop "example-registry" "device-1" 3).1,
   (c9_publish_loop "example-registry" "device-1" 3).2 1 (by decide)⟩

/-- Claim C10: for identity fields free of the separator character, deriving
the client id and parsing it back with `create_from_client_id` reconstructs
a device with the same four identity fields (backoff fields take their
`__init__` values). -/
theorem c10_roundtrip (dev : Device)
    (hp : '/' ∉ dev.project_id) (hr : '/' ∉ dev.cloud_region)
    (hg : '/' ∉ dev.registry_id) (hd : '/' ∉ dev.device_id) :
    Device.create_from_client_id dev.client_id
      = some (Device.init dev.project_id dev.cloud_region dev.registry_id
          dev.device_id) := by
  have h1 : dev.client_id
      = "projects".data ++ '/' :: (dev.project_id
        ++ '/' :: ("locations".data ++ '/' :: (dev.cloud_region
        ++ '/' :: ("registries".data ++ '/' :: (dev.registry_id
        ++ '/' :: ("devices".data ++ '/' :: dev.device_id)))))) := by
    show "projects/".data ++ dev.project_id
        ++ "/locations/".data ++ dev.cloud_region
        ++ "/registries/".data ++ dev.registry_id
        ++ "/devices/".data ++ dev.device_id = _
    simp [List.append_assoc]
  have hsplit : pySplit '/' dev.client_id
      = ["projects".data, dev.project_id, "locations".data, dev.cloud_region,
         "registries".data, dev.registry_id, "devices".data, dev.device_id] := by
    rw [h1,
      pySplit_append_sep '/' _ _ (by decide),
      pySplit_append_sep '/' _ _ hp,
      pySplit_append_sep '/' _ _ (by decide),
      pySplit_append_sep '/' _ _ hr,
      pySplit_append_sep '/' _ _ (by decide),
      pySplit_append_sep '/' _ _ hg,
      pySplit_append_sep '/' _ _ (by decide),
      pySplit_no_sep '/' _ hd]
  simp [Device.create_from_client_id, hsplit, oddSlice]

/-- Claim C10 witness: the identity from the spec's own example. -/
theorem c10_witness :
    ('/' ∉ "p1".data ∧ '/' ∉ "us-central1".data ∧
     '/' ∉ "r1".data ∧ '/' ∉ "d1".data) ∧
    Device.create_from_client_id
        (Device.client_id
          (Device.init "p1".data "us-central1".data "r1".data "d1".data))
      = some (Device.init "p1".data "us-central1".data "r1".data "d1".data) :=
  ⟨⟨by decide, by decide, by decide, by decide⟩,
   c10_roundtrip (Device.init "p1".data "us-central1".data "r1".data "d1".data)
     (by decide) (by decide) (by decide) (by decide)⟩
